import Mathlib

/-!
Verification of the volumetric reserves calculator
(`advanced_reserves_calculator.py`).

The program's arithmetic is embedded over `ℚ`: every quantity the script
manipulates is a numeric scalar, and all formulas are closed-form rational
expressions (mul/div), so exact rational arithmetic is the faithful shallow
embedding of the computation layer.  Inputs are stored the way the UI stores
them: `porosity`, `water_saturation` and `recovery_factor` are percentages,
converted to fractions by `/ 100` exactly where the source does it.
-/

namespace ReservesCalc

/-- The six reservoir input fields, as held by the UI widgets
(percent fields are stored in percent, as in the source). -/
structure Inputs where
  area : ℚ
  thickness : ℚ
  porosity : ℚ
  water_saturation : ℚ
  oil_fvf : ℚ
  recovery_factor : ℚ
  deriving DecidableEq

/-- The six selectable parameters, in the order the UI lists them:
["Area", "Thickness", "Porosity", "Water Saturation", "Oil FVF",
 "Recovery Factor"]. -/
inductive Param where
  | area
  | thickness
  | porosity
  | waterSaturation
  | oilFVF
  | recoveryFactor
  deriving DecidableEq

/-- Position of a parameter in the UI selection list. -/
def Param.idx : Param → Nat
  | .area => 0
  | .thickness => 1
  | .porosity => 2
  | .waterSaturation => 3
  | .oilFVF => 4
  | .recoveryFactor => 5

/-- Read the field a parameter names (the value `eval(param.lower()...)`
retrieves in the source). -/
def baseVal : Param → Inputs → ℚ
  | .area, inp => inp.area
  | .thickness, inp => inp.thickness
  | .porosity, inp => inp.porosity
  | .waterSaturation, inp => inp.water_saturation
  | .oilFVF, inp => inp.oil_fvf
  | .recoveryFactor, inp => inp.recovery_factor

/-- Replace the field a parameter names, leaving the others unchanged. -/
def setParam : Param → ℚ → Inputs → Inputs
  | .area, v, inp => { inp with area := v }
  | .thickness, v, inp => { inp with thickness := v }
  | .porosity, v, inp => { inp with porosity := v }
  | .waterSaturation, v, inp => { inp with water_saturation := v }
  | .oilFVF, v, inp => { inp with oil_fvf := v }
  | .recoveryFactor, v, inp => { inp with recovery_factor := v }

/-- `ooip = (7758 * area * thickness * porosity_decimal *
(1 - water_saturation_decimal)) / oil_fvf`, line 124 of the source, with
`porosity_decimal = porosity / 100` and
`water_saturation_decimal = water_saturation / 100` (lines 118-119). -/
def ooip (inp : Inputs) : ℚ :=
  (7758 * inp.area * inp.thickness * (inp.porosity / 100) *
    (1 - inp.water_saturation / 100)) / inp.oil_fvf

/-- `recoverable_reserves = ooip * recovery_factor_decimal`, line 127,
with `recovery_factor_decimal = recovery_factor / 100` (line 120). -/
def recoverable_reserves (inp : Inputs) : ℚ :=
  ooip inp * (inp.recovery_factor / 100)

/-- The UI default inputs: area 1000 acres, thickness 50 ft, porosity 20 %,
water saturation 25 %, oil FVF 1.3 rb/stb, recovery factor 30 %. -/
def defaultInputs : Inputs :=
  { area := 1000, thickness := 50, porosity := 20,
    water_saturation := 25, oil_fvf := 1.3, recovery_factor := 30 }

/-- `np.linspace(a, b, n)`: `n` evenly spaced points from `a` to `b`
inclusive, point `i` being `a + i * ((b - a) / (n - 1))`. -/
def linspace (a b : ℚ) (n : Nat) : List ℚ :=
  (List.range n).map fun i : Nat => (a + (i : ℚ) * ((b - a) / ((n : ℚ) - 1)) : ℚ)

/-- Lower end of the sweep range (`param_ranges`, lines 171-178):
`base * 0.5` for every parameter except Oil FVF, which uses `base * 0.8`. -/
def sweepLo (inp : Inputs) : Param → ℚ
  | .oilFVF => inp.oil_fvf * 0.8
  | p => baseVal p inp * 0.5

/-- Upper end of the sweep range (`param_ranges`, lines 171-178):
`base * 1.5` for every parameter except Oil FVF, which uses `base * 1.2`. -/
def sweepHi (inp : Inputs) : Param → ℚ
  | .oilFVF => inp.oil_fvf * 1.2
  | p => baseVal p inp * 1.5

/-- The 100-point sweep range for a parameter (`param_ranges` values). -/
def sweepRange (inp : Inputs) (p : Param) : List ℚ :=
  linspace (sweepLo inp p) (sweepHi inp p) 100

/-- `temp_ooip` of the single-parameter sweep loop (lines 184-196), branch by
branch: the OOIP formula with the swept value in place of the chosen field,
except Recovery Factor, where `temp_ooip = ooip` (the base OOIP). -/
def sweepOoipAt (inp : Inputs) : Param → ℚ → ℚ
  | .area, v =>
      (7758 * v * inp.thickness * (inp.porosity / 100) *
        (1 - inp.water_saturation / 100)) / inp.oil_fvf
  | .thickness, v =>
      (7758 * inp.area * v * (inp.porosity / 100) *
        (1 - inp.water_saturation / 100)) / inp.oil_fvf
  | .porosity, v =>
      (7758 * inp.area * inp.thickness * (v / 100) *
        (1 - inp.water_saturation / 100)) / inp.oil_fvf
  | .waterSaturation, v =>
      (7758 * inp.area * inp.thickness * (inp.porosity / 100) *
        (1 - v / 100)) / inp.oil_fvf
  | .oilFVF, v =>
      (7758 * inp.area * inp.thickness * (inp.porosity / 100) *
        (1 - inp.water_saturation / 100)) / v
  | .recoveryFactor, _ => ooip inp

/-- `temp_recoverable` of the sweep loop (lines 198-201): for Recovery Factor
`ooip * (value/100)`, otherwise `temp_ooip * recovery_factor_decimal`. -/
def sweepRecAt (inp : Inputs) : Param → ℚ → ℚ
  | .recoveryFactor, v => ooip inp * (v / 100)
  | p, v => sweepOoipAt inp p v * (inp.recovery_factor / 100)

/-- The sweep's `ooip_values` list (line 203). -/
def ooip_values (inp : Inputs) (p : Param) : List ℚ :=
  (sweepRange inp p).map (sweepOoipAt inp p)

/-- The sweep's `recoverable_values` list (line 204). -/
def recoverable_values (inp : Inputs) (p : Param) : List ℚ :=
  (sweepRange inp p).map (sweepRecAt inp p)

/-- Tornado variation, `variation_percent = 0.2` (line 260). -/
def variation_percent : ℚ := 0.2

/-- `param_low_values[param] = base * (1 - variation_percent)`
(lines 267-274). -/
def param_low (inp : Inputs) (p : Param) : ℚ :=
  baseVal p inp * (1 - variation_percent)

/-- `param_high_values[param] = base * (1 + variation_percent)`
(lines 276-283). -/
def param_high (inp : Inputs) (p : Param) : ℚ :=
  baseVal p inp * (1 + variation_percent)

/-- `ooip_low[param]` of the tornado loop (lines 291-309): the OOIP formula at
the low perturbed value, except Oil FVF, which divides by the *high* FVF
(inverse relationship), and Recovery Factor, which keeps the base OOIP. -/
def ooip_low (inp : Inputs) : Param → ℚ
  | .area =>
      (7758 * param_low inp .area * inp.thickness * (inp.porosity / 100) *
        (1 - inp.water_saturation / 100)) / inp.oil_fvf
  | .thickness =>
      (7758 * inp.area * param_low inp .thickness * (inp.porosity / 100) *
        (1 - inp.water_saturation / 100)) / inp.oil_fvf
  | .porosity =>
      (7758 * inp.area * inp.thickness * (param_low inp .porosity / 100) *
        (1 - inp.water_saturation / 100)) / inp.oil_fvf
  | .waterSaturation =>
      (7758 * inp.area * inp.thickness * (inp.porosity / 100) *
        (1 - param_low inp .waterSaturation / 100)) / inp.oil_fvf
  | .oilFVF =>
      (7758 * inp.area * inp.thickness * (inp.porosity / 100) *
        (1 - inp.water_saturation / 100)) / param_high inp .oilFVF
  | .recoveryFactor => ooip inp

/-- `ooip_high[param]` of the tornado loop (lines 291-309): the OOIP formula
at the high perturbed value, except Oil FVF, which divides by the *low* FVF,
and Recovery Factor, which keeps the base OOIP. -/
def ooip_high (inp : Inputs) : Param → ℚ
  | .area =>
      (7758 * param_high inp .area * inp.thickness * (inp.porosity / 100) *
        (1 - inp.water_saturation / 100)) / inp.oil_fvf
  | .thickness =>
      (7758 * inp.area * param_high inp .thickness * (inp.porosity / 100) *
        (1 - inp.water_saturation / 100)) / inp.oil_fvf
  | .porosity =>
      (7758 * inp.area * inp.thickness * (param_high inp .porosity / 100) *
        (1 - inp.water_saturation / 100)) / inp.oil_fvf
  | .waterSaturation =>
      (7758 * inp.area * inp.thickness * (inp.porosity / 100) *
        (1 - param_high inp .waterSaturation / 100)) / inp.oil_fvf
  | .oilFVF =>
      (7758 * inp.area * inp.thickness * (inp.porosity / 100) *
        (1 - inp.water_saturation / 100)) / param_low inp .oilFVF
  | .recoveryFactor => ooip inp

/-- `recoverable_low[param]` (lines 311-316): for Recovery Factor
`base_ooip * (param_low/100)`, otherwise
`ooip_low[param] * recovery_factor_decimal`. -/
def recoverable_low (inp : Inputs) : Param → ℚ
  | .recoveryFactor => ooip inp * (param_low inp .recoveryFactor / 100)
  | p => ooip_low inp p * (inp.recovery_factor / 100)

/-- `recoverable_high[param]` (lines 311-316): for Recovery Factor
`base_ooip * (param_high/100)`, otherwise
`ooip_high[param] * recovery_factor_decimal`. -/
def recoverable_high (inp : Inputs) : Param → ℚ
  | .recoveryFactor => ooip inp * (param_high inp .recoveryFactor / 100)
  | p => ooip_high inp p * (inp.recovery_factor / 100)

/-- A matrix axis range: `np.linspace(base * 0.8, base * 1.2, 10)`
(lines 400-410). -/
def matrixRange (inp : Inputs) (p : Param) : List ℚ :=
  linspace (baseVal p inp * 0.8) (baseVal p inp * 1.2) 10

/-- `temp_ooip` of the matrix double loop (lines 419-451): one branch for each
of the fifteen ordered parameter pairs following the UI list order; every
other combination (same parameter twice, or a pair selected in reverse
order) falls into the `else` branch and yields the base OOIP. -/
def matrixOoipAt (inp : Inputs) : Param → Param → ℚ → ℚ → ℚ
  | .area, .thickness, p1, p2 =>
      (7758 * p1 * p2 * (inp.porosity / 100) *
        (1 - inp.water_saturation / 100)) / inp.oil_fvf
  | .area, .porosity, p1, p2 =>
      (7758 * p1 * inp.thickness * (p2 / 100) *
        (1 - inp.water_saturation / 100)) / inp.oil_fvf
  | .area, .waterSaturation, p1, p2 =>
      (7758 * p1 * inp.thickness * (inp.porosity / 100) *
        (1 - p2 / 100)) / inp.oil_fvf
  | .area, .oilFVF, p1, p2 =>
      (7758 * p1 * inp.thickness * (inp.porosity / 100) *
        (1 - inp.water_saturation / 100)) / p2
  | .area, .recoveryFactor, p1, _ =>
      (7758 * p1 * inp.thickness * (inp.porosity / 100) *
        (1 - inp.water_saturation / 100)) / inp.oil_fvf
  | .thickness, .porosity, p1, p2 =>
      (7758 * inp.area * p1 * (p2 / 100) *
        (1 - inp.water_saturation / 100)) / inp.oil_fvf
  | .thickness, .waterSaturation, p1, p2 =>
      (7758 * inp.area * p1 * (inp.porosity / 100) *
        (1 - p2 / 100)) / inp.oil_fvf
  | .thickness, .oilFVF, p1, p2 =>
      (7758 * inp.area * p1 * (inp.porosity / 100) *
        (1 - inp.water_saturation / 100)) / p2
  | .thickness, .recoveryFactor, p1, _ =>
      (7758 * inp.area * p1 * (inp.porosity / 100) *
        (1 - inp.water_saturation / 100)) / inp.oil_fvf
  | .porosity, .waterSaturation, p1, p2 =>
      (7758 * inp.area * inp.thickness * (p1 / 100) *
        (1 - p2 / 100)) / inp.oil_fvf
  | .porosity, .oilFVF, p1, p2 =>
      (7758 * inp.area * inp.thickness * (p1 / 100) *
        (1 - inp.water_saturation / 100)) / p2
  | .porosity, .recoveryFactor, p1, _ =>
      (7758 * inp.area * inp.thickness * (p1 / 100) *
        (1 - inp.water_saturation / 100)) / inp.oil_fvf
  | .waterSaturation, .oilFVF, p1, p2 =>
      (7758 * inp.area * inp.thickness * (inp.porosity / 100) *
        (1 - p1 / 100)) / p2
  | .waterSaturation, .recoveryFactor, p1, _ =>
      (7758 * inp.area * inp.thickness * (inp.porosity / 100) *
        (1 - p1 / 100)) / inp.oil_fvf
  | .oilFVF, .recoveryFactor, p1, _ =>
      (7758 * inp.area * inp.thickness * (inp.porosity / 100) *
        (1 - inp.water_saturation / 100)) / p1
  | _, _, _, _ => ooip inp

/-- `temp_recoverable` of the matrix loop (lines 454-461): the swept recovery
factor (param1's value first, then param2's) when Recovery Factor is
selected, else the base recovery factor. -/
def matrixRecAt (inp : Inputs) (q1 q2 : Param) (p1 p2 : ℚ) : ℚ :=
  if q1 = .recoveryFactor then matrixOoipAt inp q1 q2 p1 p2 * (p1 / 100)
  else if q2 = .recoveryFactor then matrixOoipAt inp q1 q2 p1 p2 * (p2 / 100)
  else matrixOoipAt inp q1 q2 p1 p2 * (inp.recovery_factor / 100)

/-- `ooip_matrix` (lines 413-463): rows indexed by param1's range, columns by
param2's range. -/
def ooip_matrix (inp : Inputs) (q1 q2 : Param) : List (List ℚ) :=
  (matrixRange inp q1).map fun p1 =>
    (matrixRange inp q2).map fun p2 => matrixOoipAt inp q1 q2 p1 p2

/-- `recoverable_matrix` (lines 414-464). -/
def recoverable_matrix (inp : Inputs) (q1 q2 : Param) : List (List ℚ) :=
  (matrixRange inp q1).map fun p1 =>
    (matrixRange inp q2).map fun p2 => matrixRecAt inp q1 q2 p1 p2

/-- **C1.** For every input with the percent fields converted to fractions by
dividing by 100 and `oil_fvf > 0`, the Formula Engine returns
`ooip = 7758 * area * thickness * porosity * (1 - water_saturation) / oil_fvf`
and `recoverable = ooip * recovery_factor`, exactly (porosity,
water_saturation and recovery_factor denote the converted fractions). -/
theorem C1_formula_engine (inp : Inputs) (hB : 0 < inp.oil_fvf) :
    ooip inp =
      7758 * inp.area * inp.thickness * (inp.porosity / 100) *
        (1 - inp.water_saturation / 100) / inp.oil_fvf ∧
    recoverable_reserves inp = ooip inp * (inp.recovery_factor / 100) := by
  exact ⟨rfl, rfl⟩

/-- Witness for C1 at the UI default inputs: `oil_fvf = 1.3 > 0`, OOIP is
`44757692.307...` (= 581850000/13 bbl) and recoverable is 30 % of it. -/
theorem C1_formula_engine_witness :
    (0 : ℚ) < defaultInputs.oil_fvf ∧
    ooip defaultInputs =
      7758 * defaultInputs.area * defaultInputs.thickness *
        (defaultInputs.porosity / 100) *
        (1 - defaultInputs.water_saturation / 100) / defaultInputs.oil_fvf ∧
    recoverable_reserves defaultInputs =
      ooip defaultInputs * (defaultInputs.recovery_factor / 100) :=
  ⟨by norm_num [defaultInputs], C1_formula_engine defaultInputs (by norm_num [defaultInputs])⟩

/-- Sanity: the spec's literal example, `ooip = 581850000/13 ≈ 44,757,692`. -/
example : ooip defaultInputs = 581850000 / 13 := by
  norm_num [ooip, defaultInputs]

theorem ooip_setRF (inp : Inputs) (r : ℚ) :
    ooip (setParam .recoveryFactor r inp) = ooip inp := rfl

theorem length_linspace (a b : ℚ) (n : Nat) : (linspace a b n).length = n := by
  simp only [linspace, List.length_map, List.length_range]

theorem length_sweepRange (inp : Inputs) (p : Param) :
    (sweepRange inp p).length = 100 := by
  simp [sweepRange, length_linspace]

/-- **C2.** Every OOIP value computed by the sweep, tornado and matrix
evaluators is independent of the base `recovery_factor`; in particular the
sweep over Recovery Factor yields an OOIP sequence whose 100 entries all
equal the base OOIP, and the Recovery Factor tornado entry has
`ooip_low = ooip_high = base OOIP`. -/
theorem C2_ooip_independent_of_recovery_factor (inp : Inputs) (r : ℚ) :
    (∀ p v, sweepOoipAt (setParam .recoveryFactor r inp) p v = sweepOoipAt inp p v) ∧
    (∀ p, ooip_low (setParam .recoveryFactor r inp) p = ooip_low inp p) ∧
    (∀ p, ooip_high (setParam .recoveryFactor r inp) p = ooip_high inp p) ∧
    (∀ q1 q2 v1 v2,
      matrixOoipAt (setParam .recoveryFactor r inp) q1 q2 v1 v2 =
        matrixOoipAt inp q1 q2 v1 v2) ∧
    ooip_values inp .recoveryFactor = List.replicate 100 (ooip inp) ∧
    ooip_low inp .recoveryFactor = ooip inp ∧
    ooip_high inp .recoveryFactor = ooip inp := by
  refine ⟨fun p v => ?_, fun p => ?_, fun p => ?_, fun q1 q2 v1 v2 => ?_, ?_, rfl, rfl⟩
  · cases p <;> rfl
  · cases p <;> rfl
  · cases p <;> rfl
  · cases q1 <;> cases q2 <;> rfl
  · show (sweepRange inp .recoveryFactor).map (fun _ => ooip inp) =
      List.replicate 100 (ooip inp)
    rw [List.map_const', length_sweepRange]

theorem linspace_getD (a b : ℚ) (n i : Nat) (h : i < n) :
    (linspace a b n).getD i 0 = a + (i : ℚ) * ((b - a) / ((n : ℚ) - 1)) := by
  simp [linspace, List.getD, List.getElem?_map, List.getElem?_range, h]

theorem map_getD (l : List ℚ) (f : ℚ → ℚ) (i : Nat) (h : i < l.length) :
    (l.map f).getD i 0 = f (l.getD i 0) := by
  rw [List.getD_eq_getElem _ _ (by simpa using h), List.getD_eq_getElem _ _ h,
    List.getElem_map]

/-- Each sweep OOIP branch equals the Formula Engine on the base inputs with
only the chosen field replaced by the swept value. -/
theorem sweepOoipAt_eq_ooip_setParam (inp : Inputs) (p : Param) (v : ℚ) :
    sweepOoipAt inp p v = ooip (setParam p v inp) := by
  cases p <;> rfl

/-- Each sweep recoverable branch equals the Formula Engine on the base
inputs with only the chosen field replaced by the swept value. -/
theorem sweepRecAt_eq_recoverable_setParam (inp : Inputs) (p : Param) (v : ℚ) :
    sweepRecAt inp p v = recoverable_reserves (setParam p v inp) := by
  cases p <;> rfl

theorem sweepLo_lt_sweepHi (inp : Inputs)
    (hA : 0 < inp.area) (hT : 0 < inp.thickness) (hP : 0 < inp.porosity)
    (hW : 0 < inp.water_saturation) (hB : 0 < inp.oil_fvf)
    (hR : 0 < inp.recovery_factor) (p : Param) :
    sweepLo inp p < sweepHi inp p := by
  cases p <;> simp only [sweepLo, sweepHi, baseVal] <;> nlinarith

/-- **C3.** For every base input (all fields positive as the UI bounds
guarantee) and every selected parameter, the sweep produces exactly 100
evenly spaced values in ascending order spanning `[0.5*base, 1.5*base]`
(`[0.8*base, 1.2*base]` for Oil FVF); each output entry equals the Formula
Engine applied to the base inputs with only the chosen field replaced by the
generated value; the output sequences have length 100 and the swept values
are strictly ascending (hence monotonically non-decreasing). -/
theorem C3_sweep_generator (inp : Inputs)
    (hA : 0 < inp.area) (hT : 0 < inp.thickness) (hP : 0 < inp.porosity)
    (hW : 0 < inp.water_saturation) (hB : 0 < inp.oil_fvf)
    (hR : 0 < inp.recovery_factor) (p : Param) :
    (sweepRange inp p).length = 100 ∧
    (ooip_values inp p).length = 100 ∧
    (recoverable_values inp p).length = 100 ∧
    (if p = .oilFVF
      then sweepLo inp p = baseVal p inp * 0.8 ∧ sweepHi inp p = baseVal p inp * 1.2
      else sweepLo inp p = baseVal p inp * 0.5 ∧ sweepHi inp p = baseVal p inp * 1.5) ∧
    (∀ i : Nat, i < 100 →
      (sweepRange inp p).getD i 0 =
        sweepLo inp p + (i : ℚ) * ((sweepHi inp p - sweepLo inp p) / 99)) ∧
    (sweepRange inp p).getD 0 0 = sweepLo inp p ∧
    (sweepRange inp p).getD 99 0 = sweepHi inp p ∧
    (∀ i : Nat, i + 1 < 100 →
      (sweepRange inp p).getD i 0 < (sweepRange inp p).getD (i + 1) 0) ∧
    (∀ i : Nat, i < 100 →
      (ooip_values inp p).getD i 0 =
        ooip (setParam p ((sweepRange inp p).getD i 0) inp) ∧
      (recoverable_values inp p).getD i 0 =
        recoverable_reserves (setParam p ((sweepRange inp p).getD i 0) inp)) := by
  have hlen : (sweepRange inp p).length = 100 := length_sweepRange inp p
  have hgetD : ∀ i : Nat, i < 100 →
      (sweepRange inp p).getD i 0 =
        sweepLo inp p + (i : ℚ) * ((sweepHi inp p - sweepLo inp p) / 99) := by
    intro i hi
    rw [sweepRange, linspace_getD _ _ _ _ hi]
    norm_num
  have hstep : 0 < (sweepHi inp p - sweepLo inp p) / 99 := by
    have hlt := sweepLo_lt_sweepHi inp hA hT hP hW hB hR p
    exact div_pos (by linarith) (by norm_num)
  refine ⟨hlen, ?_, ?_, ?_, hgetD, ?_, ?_, ?_, ?_⟩
  · simp only [ooip_values, List.length_map, hlen]
  · simp only [recoverable_values, List.length_map, hlen]
  · cases p <;>
      first
        | (rw [if_neg (by decide)]; exact ⟨rfl, rfl⟩)
        | (rw [if_pos rfl]; exact ⟨rfl, rfl⟩)
  · rw [hgetD 0 (by norm_num)]; norm_num
  · rw [hgetD 99 (by norm_num)]; push_cast; ring
  · intro i hi
    rw [hgetD i (by omega), hgetD (i + 1) hi]
    push_cast
    nlinarith [hstep]
  · intro i hi
    constructor
    · rw [ooip_values, map_getD _ _ _ (by rw [hlen]; exact hi),
        sweepOoipAt_eq_ooip_setParam]
    · rw [recoverable_values, map_getD _ _ _ (by rw [hlen]; exact hi),
        sweepRecAt_eq_recoverable_setParam]

/-- Witness for C3 at the UI default inputs and parameter Area: the range has
100 entries, starts at `1000 * 0.5 = 500`, and the first OOIP entry is the
engine evaluated at area 500. -/
theorem C3_sweep_generator_witness :
    (sweepRange defaultInputs .area).length = 100 ∧
    (sweepRange defaultInputs .area).getD 0 0 = sweepLo defaultInputs .area ∧
    (ooip_values defaultInputs .area).getD 0 0 =
      ooip (setParam .area ((sweepRange defaultInputs .area).getD 0 0) defaultInputs) := by
  have H := C3_sweep_generator defaultInputs
    (by norm_num [defaultInputs]) (by norm_num [defaultInputs])
    (by norm_num [defaultInputs]) (by norm_num [defaultInputs])
    (by norm_num [defaultInputs]) (by norm_num [defaultInputs]) .area
  exact ⟨H.1, H.2.2.2.2.2.1, (H.2.2.2.2.2.2.2.2 0 (by norm_num)).1⟩

/-- **C4.** Tornado evaluation with variation 0.2: for Oil FVF, `ooip_low` is
computed with the *high* perturbed FVF (base × 1.2) and `ooip_high` with the
*low* perturbed FVF (base × 0.8); for Recovery Factor,
`recoverable_low/high = base OOIP × perturbed recovery factor`; for every
other parameter `recoverable_low/high = ooip_low/high × base recovery
factor`. -/
theorem C4_tornado_evaluator (inp : Inputs) :
    variation_percent = 0.2 ∧
    param_low inp .oilFVF = inp.oil_fvf * 0.8 ∧
    param_high inp .oilFVF = inp.oil_fvf * 1.2 ∧
    ooip_low inp .oilFVF = ooip (setParam .oilFVF (param_high inp .oilFVF) inp) ∧
    ooip_high inp .oilFVF = ooip (setParam .oilFVF (param_low inp .oilFVF) inp) ∧
    recoverable_low inp .recoveryFactor =
      ooip inp * (param_low inp .recoveryFactor / 100) ∧
    recoverable_high inp .recoveryFactor =
      ooip inp * (param_high inp .recoveryFactor / 100) ∧
    (∀ p, p ≠ .recoveryFactor →
      recoverable_low inp p = ooip_low inp p * (inp.recovery_factor / 100) ∧
      recoverable_high inp p = ooip_high inp p * (inp.recovery_factor / 100)) := by
  refine ⟨rfl, ?_, ?_, rfl, rfl, rfl, rfl, ?_⟩
  · show inp.oil_fvf * (1 - 0.2) = inp.oil_fvf * 0.8
    norm_num
  · show inp.oil_fvf * (1 + 0.2) = inp.oil_fvf * 1.2
    norm_num
  · intro p hp
    cases p
    case recoveryFactor => exact absurd rfl hp
    all_goals exact ⟨rfl, rfl⟩

/-- Witness for C4 at the UI default inputs and parameter Area (the `p ≠
Recovery Factor` hypothesis discharged at `p = Area`). -/
theorem C4_tornado_evaluator_witness :
    recoverable_low defaultInputs .area =
      ooip_low defaultInputs .area * (defaultInputs.recovery_factor / 100) ∧
    recoverable_high defaultInputs .area =
      ooip_high defaultInputs .area * (defaultInputs.recovery_factor / 100) :=
  (C4_tornado_evaluator defaultInputs).2.2.2.2.2.2.2 .area (by decide)

/-- **C10.** In the tornado output for Water Saturation no low/high swap is
applied: `ooip_low` is evaluated at the low perturbed saturation and
`ooip_high` at the high one, so for valid base inputs the value labeled
`ooip_low` is strictly greater than the value labeled `ooip_high`. -/
theorem C10_tornado_ws_no_swap (inp : Inputs)
    (hA : 0 < inp.area) (hT : 0 < inp.thickness) (hP : 0 < inp.porosity)
    (hW : 0 < inp.water_saturation) (hB : 0 < inp.oil_fvf) :
    ooip_low inp .waterSaturation =
      ooip (setParam .waterSaturation (param_low inp .waterSaturation) inp) ∧
    ooip_high inp .waterSaturation =
      ooip (setParam .waterSaturation (param_high inp .waterSaturation) inp) ∧
    ooip_high inp .waterSaturation < ooip_low inp .waterSaturation := by
  refine ⟨rfl, rfl, ?_⟩
  show (7758 * inp.area * inp.thickness * (inp.porosity / 100) *
      (1 - param_high inp .waterSaturation / 100)) / inp.oil_fvf <
    (7758 * inp.area * inp.thickness * (inp.porosity / 100) *
      (1 - param_low inp .waterSaturation / 100)) / inp.oil_fvf
  rw [div_lt_div_iff₀ hB hB]
  have hPd : 0 < inp.porosity / 100 := div_pos hP (by norm_num)
  have hkey : 0 < inp.area * inp.thickness * (inp.porosity / 100) *
      inp.water_saturation * inp.oil_fvf :=
    mul_pos (mul_pos (mul_pos (mul_pos hA hT) hPd) hW) hB
  simp only [param_low, param_high, baseVal, variation_percent]
  nlinarith [hkey]

/-- Witness for C10 at the UI default inputs. -/
theorem C10_tornado_ws_no_swap_witness :
    ooip_high defaultInputs .waterSaturation < ooip_low defaultInputs .waterSaturation :=
  (C10_tornado_ws_no_swap defaultInputs (by norm_num [defaultInputs])
    (by norm_num [defaultInputs]) (by norm_num [defaultInputs])
    (by norm_num [defaultInputs]) (by norm_num [defaultInputs])).2.2

/-- **C7.** For valid inputs (positive fields, porosity and water-saturation
percentages strictly between 0 and 100), OOIP is strictly increasing in
area, thickness and porosity, strictly decreasing in water saturation and
oil FVF, and independent of recovery factor. -/
theorem C7_ooip_monotonicity (inp : Inputs)
    (hA : 0 < inp.area) (hT : 0 < inp.thickness)
    (hP : 0 < inp.porosity) (hP100 : inp.porosity < 100)
    (hW : 0 < inp.water_saturation) (hW100 : inp.water_saturation < 100)
    (hB : 0 < inp.oil_fvf) (hR : 0 < inp.recovery_factor) :
    (∀ x y, 0 < x → x < y →
      ooip (setParam .area x inp) < ooip (setParam .area y inp)) ∧
    (∀ x y, 0 < x → x < y →
      ooip (setParam .thickness x inp) < ooip (setParam .thickness y inp)) ∧
    (∀ x y, 0 < x → x < y →
      ooip (setParam .porosity x inp) < ooip (setParam .porosity y inp)) ∧
    (∀ x y, 0 < x → x < y →
      ooip (setParam .waterSaturation y inp) < ooip (setParam .waterSaturation x inp)) ∧
    (∀ x y, 0 < x → x < y →
      ooip (setParam .oilFVF y inp) < ooip (setParam .oilFVF x inp)) ∧
    (∀ r, ooip (setParam .recoveryFactor r inp) = ooip inp) := by
  have h100 : (0 : ℚ) < 100 := by norm_num
  have hPd : 0 < inp.porosity / 100 := div_pos hP h100
  have hWd : 0 < 1 - inp.water_saturation / 100 := by
    rw [sub_pos]
    exact (div_lt_one h100).2 hW100
  have hN : 0 < 7758 * inp.area * inp.thickness * (inp.porosity / 100) *
      (1 - inp.water_saturation / 100) :=
    mul_pos (mul_pos (mul_pos (mul_pos (by norm_num) hA) hT) hPd) hWd
  refine ⟨fun x y hx hxy => ?_, fun x y hx hxy => ?_, fun x y hx hxy => ?_,
    fun x y hx hxy => ?_, fun x y hx hxy => ?_, fun r => rfl⟩
  · show (7758 * x * inp.thickness * (inp.porosity / 100) *
        (1 - inp.water_saturation / 100)) / inp.oil_fvf <
      (7758 * y * inp.thickness * (inp.porosity / 100) *
        (1 - inp.water_saturation / 100)) / inp.oil_fvf
    rw [div_lt_div_iff₀ hB hB]
    nlinarith [mul_pos (mul_pos (mul_pos (mul_pos hT hPd) hWd) hB) (sub_pos.2 hxy)]
  · show (7758 * inp.area * x * (inp.porosity / 100) *
        (1 - inp.water_saturation / 100)) / inp.oil_fvf <
      (7758 * inp.area * y * (inp.porosity / 100) *
        (1 - inp.water_saturation / 100)) / inp.oil_fvf
    rw [div_lt_div_iff₀ hB hB]
    nlinarith [mul_pos (mul_pos (mul_pos (mul_pos hA hPd) hWd) hB) (sub_pos.2 hxy)]
  · show (7758 * inp.area * inp.thickness * (x / 100) *
        (1 - inp.water_saturation / 100)) / inp.oil_fvf <
      (7758 * inp.area * inp.thickness * (y / 100) *
        (1 - inp.water_saturation / 100)) / inp.oil_fvf
    rw [div_lt_div_iff₀ hB hB]
    nlinarith [mul_pos (mul_pos (mul_pos (mul_pos hA hT) hWd) hB) (sub_pos.2 hxy)]
  · show (7758 * inp.area * inp.thickness * (inp.porosity / 100) *
        (1 - y / 100)) / inp.oil_fvf <
      (7758 * inp.area * inp.thickness * (inp.porosity / 100) *
        (1 - x / 100)) / inp.oil_fvf
    rw [div_lt_div_iff₀ hB hB]
    nlinarith [mul_pos (mul_pos (mul_pos (mul_pos hA hT) hPd) hB) (sub_pos.2 hxy)]
  · exact div_lt_div_of_pos_left hN hx hxy

/-- Witness for C7 at the UI default inputs, each monotonicity part
instantiated at a concrete pair of parameter values. -/
theorem C7_ooip_monotonicity_witness :
    ooip (setParam .area 1000 defaultInputs) < ooip (setParam .area 1100 defaultInputs) ∧
    ooip (setParam .oilFVF 1.4 defaultInputs) < ooip (setParam .oilFVF 1.3 defaultInputs) ∧
    ooip (setParam .recoveryFactor 55 defaultInputs) = ooip defaultInputs := by
  have H := C7_ooip_monotonicity defaultInputs
    (by norm_num [defaultInputs]) (by norm_num [defaultInputs])
    (by norm_num [defaultInputs]) (by norm_num [defaultInputs])
    (by norm_num [defaultInputs]) (by norm_num [defaultInputs])
    (by norm_num [defaultInputs]) (by norm_num [defaultInputs])
  exact ⟨H.1 1000 1100 (by norm_num) (by norm_num),
    H.2.2.2.2.1 1.3 1.4 (by norm_num) (by norm_num),
    H.2.2.2.2.2 55⟩

theorem map_getD' {α β : Type} (l : List α) (f : α → β) (i : Nat) (d : α)
    (d' : β) (h : i < l.length) : (l.map f).getD i d' = f (l.getD i d) := by
  rw [List.getD_eq_getElem _ _ (by simpa using h), List.getD_eq_getElem _ _ h,
    List.getElem_map]

theorem length_matrixRange (inp : Inputs) (p : Param) :
    (matrixRange inp p).length = 10 := by
  simp only [matrixRange, length_linspace]

/-- For every pair of parameters selected in the order the UI lists them, the
matrix OOIP branch equals the Formula Engine with both fields substituted
simultaneously. -/
theorem matrixOoipAt_ordered (inp : Inputs) (q1 q2 : Param)
    (h : q1.idx < q2.idx) (v1 v2 : ℚ) :
    matrixOoipAt inp q1 q2 v1 v2 = ooip (setParam q2 v2 (setParam q1 v1 inp)) := by
  cases q1 <;> cases q2 <;> first | rfl | (exact absurd h (by decide))

/-- For every pair of parameters selected in the order the UI lists them, the
matrix recoverable branch equals the Formula Engine with both fields
substituted simultaneously. -/
theorem matrixRecAt_ordered (inp : Inputs) (q1 q2 : Param)
    (h : q1.idx < q2.idx) (v1 v2 : ℚ) :
    matrixRecAt inp q1 q2 v1 v2 =
      recoverable_reserves (setParam q2 v2 (setParam q1 v1 inp)) := by
  cases q1 <;> cases q2 <;> first | rfl | (exact absurd h (by decide))

/-- **C5 (amended).** The matrix evaluator produces two 10 × 10 grids whose
cell (i, j) equals the Formula Engine on the base inputs with both selected
fields substituted simultaneously — provided the two distinct parameters are
selected in the order the UI lists them (param1 before param2).  (As stated,
with "either selection order", the claim is false: a pair selected in
reverse order falls into the `else` fallback, see
`C5_matrix_counterexample`.) -/
theorem C5_matrix_evaluator_ordered (inp : Inputs) (q1 q2 : Param)
    (h : q1.idx < q2.idx) :
    (ooip_matrix inp q1 q2).length = 10 ∧
    (recoverable_matrix inp q1 q2).length = 10 ∧
    (∀ i : Nat, i < 10 →
      ((ooip_matrix inp q1 q2).getD i []).length = 10 ∧
      ((recoverable_matrix inp q1 q2).getD i []).length = 10) ∧
    (∀ i j : Nat, i < 10 → j < 10 →
      ((ooip_matrix inp q1 q2).getD i []).getD j 0 =
        ooip (setParam q2 ((matrixRange inp q2).getD j 0)
          (setParam q1 ((matrixRange inp q1).getD i 0) inp)) ∧
      ((recoverable_matrix inp q1 q2).getD i []).getD j 0 =
        recoverable_reserves (setParam q2 ((matrixRange inp q2).getD j 0)
          (setParam q1 ((matrixRange inp q1).getD i 0) inp))) := by
  have hl1 : (matrixRange inp q1).length = 10 := length_matrixRange inp q1
  have hl2 : (matrixRange inp q2).length = 10 := length_matrixRange inp q2
  refine ⟨?_, ?_, ?_, ?_⟩
  · simp only [ooip_matrix, List.length_map, hl1]
  · simp only [recoverable_matrix, List.length_map, hl1]
  · intro i hi
    constructor
    · rw [ooip_matrix, map_getD' _ _ _ 0 _ (by rw [hl1]; exact hi),
        List.length_map, hl2]
    · rw [recoverable_matrix, map_getD' _ _ _ 0 _ (by rw [hl1]; exact hi),
        List.length_map, hl2]
  · intro i j hi hj
    constructor
    · rw [ooip_matrix, map_getD' _ _ _ 0 _ (by rw [hl1]; exact hi),
        map_getD' _ _ _ 0 _ (by rw [hl2]; exact hj), matrixOoipAt_ordered inp q1 q2 h]
    · rw [recoverable_matrix, map_getD' _ _ _ 0 _ (by rw [hl1]; exact hi),
        map_getD' _ _ _ 0 _ (by rw [hl2]; exact hj), matrixRecAt_ordered inp q1 q2 h]

/-- Witness for C5 (amended) at the UI default inputs with param1 = Area,
param2 = Thickness (`Area.idx = 0 < 1 = Thickness.idx`). -/
theorem C5_matrix_evaluator_ordered_witness :
    (ooip_matrix defaultInputs .area .thickness).length = 10 ∧
    ((ooip_matrix defaultInputs .area .thickness).getD 0 []).getD 0 0 =
      ooip (setParam .thickness ((matrixRange defaultInputs .thickness).getD 0 0)
        (setParam .area ((matrixRange defaultInputs .area).getD 0 0) defaultInputs)) := by
  have H := C5_matrix_evaluator_ordered defaultInputs .area .thickness (by decide)
  exact ⟨H.1, (H.2.2.2 0 0 (by norm_num) (by norm_num)).1⟩

/-- **C5 counterexample.** With the two distinct parameters selected in
reverse list order (param1 = Thickness, param2 = Area) the first cell does
*not* equal the Formula Engine with both swept values substituted: the code
falls into the `else` branch and returns the base OOIP instead. -/
theorem C5_matrix_counterexample :
    ¬ (((ooip_matrix defaultInputs .thickness .area).getD 0 []).getD 0 0 =
      ooip (setParam .area ((matrixRange defaultInputs .area).getD 0 0)
        (setParam .thickness ((matrixRange defaultInputs .thickness).getD 0 0)
          defaultInputs))) := by
  have h1 : (matrixRange defaultInputs .thickness).getD 0 0 = 40 := by
    rw [matrixRange, linspace_getD _ _ _ _ (by norm_num)]
    norm_num [baseVal, defaultInputs]
  have h2 : (matrixRange defaultInputs .area).getD 0 0 = 800 := by
    rw [matrixRange, linspace_getD _ _ _ _ (by norm_num)]
    norm_num [baseVal, defaultInputs]
  have hcell : ((ooip_matrix defaultInputs .thickness .area).getD 0 []).getD 0 0 =
      ooip defaultInputs := by
    rw [ooip_matrix, map_getD' _ _ _ 0 _ (by rw [length_matrixRange]; norm_num),
      map_getD' _ _ _ 0 _ (by rw [length_matrixRange]; norm_num)]
    rfl
  rw [hcell, h1, h2]
  norm_num [ooip, setParam, defaultInputs]

theorem matrixOoipAt_diag (inp : Inputs) (p : Param) (v1 v2 : ℚ) :
    matrixOoipAt inp p p v1 v2 = ooip inp := by
  cases p <;> rfl

/-- **C6.** When the same parameter is selected for both matrix axes the
evaluator still returns a well-defined 10 × 10 grid (the embedding is a total
function; no branch raises), and every cell of the OOIP grid equals the
base-case OOIP. -/
theorem C6_matrix_same_param_degenerate (inp : Inputs) (p : Param) :
    ooip_matrix inp p p = List.replicate 10 (List.replicate 10 (ooip inp)) := by
  have hlen : (matrixRange inp p).length = 10 := length_matrixRange inp p
  show ((matrixRange inp p).map fun v1 =>
      (matrixRange inp p).map fun v2 => matrixOoipAt inp p p v1 v2) =
    List.replicate 10 (List.replicate 10 (ooip inp))
  have hrow : ∀ v1 : ℚ,
      ((matrixRange inp p).map fun v2 => matrixOoipAt inp p p v1 v2) =
        List.replicate 10 (ooip inp) := by
    intro v1
    have : ((matrixRange inp p).map fun v2 => matrixOoipAt inp p p v1 v2) =
        (matrixRange inp p).map fun _ => ooip inp :=
      List.map_congr_left fun v2 _ => matrixOoipAt_diag inp p v1 v2
    rw [this, List.map_const', hlen]
  have : ((matrixRange inp p).map fun v1 =>
      (matrixRange inp p).map fun v2 => matrixOoipAt inp p p v1 v2) =
        (matrixRange inp p).map fun _ => List.replicate 10 (ooip inp) :=
    List.map_congr_left fun v1 _ => hrow v1
  rw [this, List.map_const', hlen]

/-- A programmatic input bypassing the UI slider: `oil_fvf = -1 ≤ 0`,
all other fields at their UI defaults. -/
def negFvfInputs : Inputs :=
  { area := 1000, thickness := 50, porosity := 20,
    water_saturation := 25, oil_fvf := -1, recovery_factor := 30 }

/-- **C8 (code bug).** The source imposes no guard on `oil_fvf ≤ 0`: at
`oil_fvf = -1` the Formula Engine silently returns the finite negative
numbers OOIP = −58,185,000 bbl and recoverable = −17,455,500 bbl instead of
rejecting the input as the spec mandates (§4.1, §7). -/
theorem C8_no_oil_fvf_guard :
    negFvfInputs.oil_fvf ≤ 0 ∧
    ooip negFvfInputs = -58185000 ∧
    recoverable_reserves negFvfInputs = -17455500 := by
  norm_num [ooip, recoverable_reserves, negFvfInputs]

/-! ### Excel sheet names (`get_unique_sheet_name`, lines 19-39)

Python strings are embedded as `List Char`.  The numeric suffix uses the
standard decimal representation of the counter `i` (Python's
`f"{name}_{i}"`), embedded by the fuel-based `digitsAux`/`natToStr` below
(`digitsAux (n+1) n` always has enough fuel since the argument shrinks by a
factor of ten each step).  The unbounded Python `while` loop is embedded by
`findFree` with fuel `len(used_names) + 1`; `exists_free_suffix` shows a
fresh name always occurs within that window, so the fuel never runs out and
`findFree` returns exactly the name the loop returns. -/

/-- The characters Excel forbids in sheet names, replaced by the source
(line 22). -/
def invalidChars : List Char := [':', '\\', '/', '?', '*', '[', ']']

/-- `base_name.replace(char, '_')` for each invalid character (lines 22-23);
since every replacement is a single character to `'_'` and `'_'` is not
itself invalid, the sequential replaces are one character map. -/
def sanitize (s : List Char) : List Char :=
  s.map fun c => if c ∈ invalidChars then '_' else c

/-- Decimal digits of `n`, most significant first, with explicit fuel. -/
def digitsAux : Nat → Nat → List Char
  | 0, _ => []
  | fuel + 1, n =>
      if n < 10 then [Nat.digitChar n]
      else digitsAux fuel (n / 10) ++ [Nat.digitChar (n % 10)]

/-- Decimal representation of a natural number (Python's `str(i)`). -/
def natToStr (n : Nat) : List Char := digitsAux (n + 1) n

/-- `f"{name}_{i}"` (lines 35-37). -/
def candName (name : List Char) (i : Nat) : List Char :=
  name ++ '_' :: natToStr i

/-- The `while f"{name}_{i}" in used_names: i += 1` loop (lines 34-37),
with fuel. -/
def findFree (name : List Char) (used : List (List Char)) : Nat → Nat → List Char
  | 0, i => candName name i
  | fuel + 1, i =>
      if candName name i ∈ used then findFree name used fuel (i + 1)
      else candName name i

/-- `get_unique_sheet_name` (lines 19-39): sanitize, truncate to 31
characters, return if unused, else append the first free numeric suffix. -/
def get_unique_sheet_name (base_name : List Char) (used_names : List (List Char)) :
    List Char :=
  if (sanitize base_name).take 31 ∈ used_names then
    findFree ((sanitize base_name).take 31) used_names (used_names.length + 1) 1
  else (sanitize base_name).take 31

theorem digitsAux_congr (n : Nat) : ∀ f g : Nat, n < f → n < g →
    digitsAux f n = digitsAux g n := by
  induction n using Nat.strong_induction_on with
  | _ n ih =>
    intro f g hf hg
    cases f with
    | zero => omega
    | succ f =>
      cases g with
      | zero => omega
      | succ g =>
        show (if n < 10 then [Nat.digitChar n]
            else digitsAux f (n / 10) ++ [Nat.digitChar (n % 10)]) =
          (if n < 10 then [Nat.digitChar n]
            else digitsAux g (n / 10) ++ [Nat.digitChar (n % 10)])
        by_cases h10 : n < 10
        · rw [if_pos h10, if_pos h10]
        · rw [if_neg h10, if_neg h10,
            ih (n / 10) (by omega) f g (by omega) (by omega)]

theorem natToStr_lt10 (n : Nat) (h : n < 10) : natToStr n = [Nat.digitChar n] := by
  show (if n < 10 then [Nat.digitChar n]
      else digitsAux n (n / 10) ++ [Nat.digitChar (n % 10)]) = _
  rw [if_pos h]

theorem natToStr_ge10 (n : Nat) (h : ¬ n < 10) :
    natToStr n = natToStr (n / 10) ++ [Nat.digitChar (n % 10)] := by
  show (if n < 10 then [Nat.digitChar n]
      else digitsAux n (n / 10) ++ [Nat.digitChar (n % 10)]) = _
  rw [if_neg h, digitsAux_congr (n / 10) n (n / 10 + 1) (by omega) (by omega)]
  rfl

theorem natToStr_ne_nil (n : Nat) : natToStr n ≠ [] := by
  by_cases h : n < 10
  · rw [natToStr_lt10 n h]; simp
  · rw [natToStr_ge10 n h]; simp

theorem digitChar_inj_lt10 :
    ∀ a, a < 10 → ∀ b, b < 10 → Nat.digitChar a = Nat.digitChar b → a = b := by
  decide

theorem natToStr_inj (a : Nat) : ∀ b : Nat, natToStr a = natToStr b → a = b := by
  induction a using Nat.strong_induction_on with
  | _ a ih =>
    intro b hab
    by_cases ha : a < 10 <;> by_cases hb : b < 10
    · rw [natToStr_lt10 a ha, natToStr_lt10 b hb] at hab
      simp only [List.cons.injEq, and_true] at hab
      exact digitChar_inj_lt10 a ha b hb hab
    · rw [natToStr_lt10 a ha, natToStr_ge10 b hb] at hab
      have hlen := congrArg List.length hab
      simp only [List.length_cons, List.length_nil, List.length_append] at hlen
      have h0 : (natToStr (b / 10)).length = 0 := by omega
      exact absurd (List.length_eq_zero.mp h0) (natToStr_ne_nil _)
    · rw [natToStr_ge10 a ha, natToStr_lt10 b hb] at hab
      have hlen := congrArg List.length hab
      simp only [List.length_cons, List.length_nil, List.length_append] at hlen
      have h0 : (natToStr (a / 10)).length = 0 := by omega
      exact absurd (List.length_eq_zero.mp h0) (natToStr_ne_nil _)
    · rw [natToStr_ge10 a ha, natToStr_ge10 b hb] at hab
      obtain ⟨h1, h2⟩ := List.append_inj' hab (by simp)
      have hd : a / 10 = b / 10 := ih (a / 10) (by omega) (b / 10) h1
      simp only [List.cons.injEq, and_true] at h2
      have hm : a % 10 = b % 10 :=
        digitChar_inj_lt10 _ (by omega) _ (by omega) h2
      omega

theorem candName_inj (name : List Char) (i j : Nat)
    (h : candName name i = candName name j) : i = j := by
  have h1 := List.append_cancel_left h
  simp only [List.cons.injEq, true_and] at h1
  exact natToStr_inj i j h1

/-- Among any `used.length + 1` consecutive suffix candidates there is one
not in `used`: the candidates are pairwise distinct and `used` is too short
to contain them all. -/
theorem exists_free_suffix (name : List Char) (used : List (List Char)) (i : Nat) :
    ∃ k, k < used.length + 1 ∧ candName name (i + k) ∉ used := by
  by_contra hcon
  push_neg at hcon
  have hsub : (Finset.range (used.length + 1)).image (fun k => candName name (i + k)) ⊆
      used.toFinset := by
    intro x hx
    rw [Finset.mem_image] at hx
    obtain ⟨k, hk, rfl⟩ := hx
    rw [List.mem_toFinset]
    exact hcon k (Finset.mem_range.mp hk)
  have hinj : Set.InjOn (fun k => candName name (i + k))
      (Finset.range (used.length + 1)) := by
    intro x _ y _ hxy
    have := candName_inj name (i + x) (i + y) hxy
    omega
  have hcard := Finset.card_le_card hsub
  rw [Finset.card_image_of_injOn hinj, Finset.card_range] at hcard
  have := List.toFinset_card_le used
  omega

theorem findFree_not_mem (name : List Char) (used : List (List Char)) :
    ∀ fuel i : Nat, (∃ k, k < fuel ∧ candName name (i + k) ∉ used) →
      findFree name used fuel i ∉ used := by
  intro fuel
  induction fuel with
  | zero =>
    rintro i ⟨k, hk, -⟩
    omega
  | succ f ih =>
    rintro i ⟨k, hk, hfree⟩
    show (if candName name i ∈ used then findFree name used f (i + 1)
        else candName name i) ∉ used
    by_cases hmem : candName name i ∈ used
    · rw [if_pos hmem]
      apply ih
      have hk0 : k ≠ 0 := by
        rintro rfl
        rw [Nat.add_zero] at hfree
        exact hfree hmem
      refine ⟨k - 1, by omega, ?_⟩
      have harith : i + 1 + (k - 1) = i + k := by omega
      rw [harith]
      exact hfree
    · rw [if_neg hmem]
      exact hmem

/-- **C9 (amended).** `get_unique_sheet_name` always returns a name that is
not already in `used_names`; the result is at most 31 characters when the
sanitized, truncated name does not collide with `used_names`.  (As stated —
at most 31 characters for *every* input — the claim is false: on collision
the numeric suffix is appended *after* the 31-character truncation, so the
result can exceed 31 characters, see `C9_sheet_name_counterexample`.) -/
theorem C9_sheet_name_unique (base_name : List Char) (used_names : List (List Char)) :
    get_unique_sheet_name base_name used_names ∉ used_names ∧
    ((sanitize base_name).take 31 ∉ used_names →
      (get_unique_sheet_name base_name used_names).length ≤ 31) := by
  constructor
  · unfold get_unique_sheet_name
    by_cases h : (sanitize base_name).take 31 ∈ used_names
    · rw [if_pos h]
      exact findFree_not_mem _ _ _ 1
        (exists_free_suffix ((sanitize base_name).take 31) used_names 1)
    · rw [if_neg h]
      exact h
  · intro h
    unfold get_unique_sheet_name
    rw [if_neg h, List.length_take]
    exact min_le_left _ _

/-- Witness for C9 (amended): `"Base Case"` against an empty used list comes
back unchanged, absent from the list and 9 ≤ 31 characters long. -/
theorem C9_sheet_name_unique_witness :
    get_unique_sheet_name
        ['B', 'a', 's', 'e', ' ', 'C', 'a', 's', 'e'] [] ∉ ([] : List (List Char)) ∧
    (get_unique_sheet_name ['B', 'a', 's', 'e', ' ', 'C', 'a', 's', 'e'] []).length ≤ 31 := by
  have H := C9_sheet_name_unique ['B', 'a', 's', 'e', ' ', 'C', 'a', 's', 'e'] []
  exact ⟨H.1, H.2 (by decide)⟩

/-- **C9 counterexample.** A 32-character base name whose 31-character
truncation is already used: the returned name gets the `_1` suffix appended
after truncation and is 33 > 31 characters long (the "at most 31 characters"
part of the claim fails). -/
theorem C9_sheet_name_counterexample :
    (get_unique_sheet_name (List.replicate 32 'a') [List.replicate 31 'a']).length = 33 ∧
    ¬ ((get_unique_sheet_name (List.replicate 32 'a')
        [List.replicate 31 'a']).length ≤ 31) := by
  decide

end ReservesCalc
